import Mathlib

/-!
Verification of the xnlogo compiler pipeline against its specification.

This file shallowly embeds the parts of the code base that the checked
properties talk about:

* `xnlogo/codegen/netlogo_translator.py` (namespace `NT`): the legacy
  statement translator `NetLogoTranslator`.
* `xnlogo/parser/py_to_netlogo.py` (namespace `Conv`): the model-subclass
  converter `PythonToNetLogoConverter`.
* `xnlogo/ir/model.py`, `xnlogo/ir/statements.py`,
  `xnlogo/semantics/diagnostics.py`: the IR records and the diagnostic bag.
* `xnlogo/semantics/checks.py`: structural and behavioral checks.
* `xnlogo/compiler.py`: `parse_sources` / `build_artifact` orchestration.
* `xnlogo/runtime/telemetry.py`: `TelemetryBuffer` JSON round trip.
* `xnlogo/runtime/session.py`: the `NetLogoSession` state machine.

External collaborators are treated as black boxes, as the spec prescribes:
the host-language parser `ast.parse` appears as an `Option`-valued oracle
argument, `ast.unparse` as a `String`-valued oracle argument, the JSON
codec as the identity on a `JValue` tree, and the NetLogo workspace as an
abstract type parameter.  Machine integers are `Int`/`Nat` (no overflow is
relevant anywhere in the modelled code).

The embedded Python AST (`PyConst`, `PyExpr`, and the statement types) is
the sublanguage of host-language syntax that the translators' claims range
over; nodes outside it are represented by the `other` constructors, whose
translation is the `ast.unparse` fallback of the source.
-/

/-- Whether `needle` occurs in `haystack`: Python's `needle in haystack`. -/
def charSublist (needle : List Char) : List Char → Bool
  | [] => needle.isEmpty
  | c :: rest => needle.isPrefixOf (c :: rest) || charSublist needle rest

/-- Substring test on strings. -/
def strContains (haystack needle : String) : Bool :=
  charSublist needle.data haystack.data

/-- Scanner for `String.pyReplace`: in skip mode (`n > 0`) drop the
characters of a pattern occurrence already replaced, otherwise replace the
leftmost occurrence and re-enter skip mode. -/
def replaceAux (pat rep : List Char) : Nat → List Char → List Char
  | 0, [] => []
  | 0, c :: rest =>
    if pat.isPrefixOf (c :: rest) && !pat.isEmpty then
      rep ++ replaceAux pat rep (pat.length - 1) rest
    else c :: replaceAux pat rep 0 rest
  | _ + 1, [] => []
  | n + 1, _ :: rest => replaceAux pat rep n rest

/-- Python `str.replace`: non-overlapping left-to-right replacement (the
modelled code never calls it with an empty pattern). -/
def String.pyReplace (s pat rep : String) : String :=
  String.mk (replaceAux pat.data rep.data 0 s.data)

/-- Python `str.lower` (ASCII suffices for the modelled code). -/
def pyLower (s : String) : String :=
  String.mk (s.data.map Char.toLower)

/-- Python `str.strip()` with no argument: trim surrounding whitespace. -/
def pyStrip (s : String) : String :=
  String.mk
    (((s.data.dropWhile Char.isWhitespace).reverse.dropWhile
      Char.isWhitespace).reverse)

/-- Python `str.startswith`. -/
def pyStartsWith (s pre : String) : Bool :=
  pre.data.isPrefixOf s.data

namespace Xnlogo

/-- Python constants as they reach `visit_Constant` / `_convert_constant`.
A numeric constant carries the text `str(value)` produces for it, which is
the only use either translator makes of the value. -/
inductive PyConst where
  | bool (b : Bool)
  | str (s : String)
  | num (lit : String)
  | pynone
  deriving DecidableEq, Repr

/-- The text `str(value)` yields for a constant (used by f-string style
interpolation such as `f"random-float {node.right.value}"`). -/
def PyConst.pyStr : PyConst → String
  | .bool b => if b then "True" else "False"
  | .str s => s
  | .num lit => lit
  | .pynone => "None"

/-- Binary operators (`ast.Add` … `ast.FloorDiv`). -/
inductive PyBinOp where
  | add | sub | mult | div | mod | pow | floorDiv
  deriving DecidableEq, Repr

/-- Comparison operators (`ast.Eq` … `ast.NotIn`). -/
inductive PyCmpOp where
  | eq | ne | lt | le | gt | ge | isIn | notIn
  deriving DecidableEq, Repr

/-- Unary operators used by the translators (`ast.USub`, `ast.Not`). -/
inductive PyUnOp where
  | usub | notOp
  deriving DecidableEq, Repr

/-- Boolean operators (`ast.And`, `ast.Or`). -/
inductive PyBoolOp where
  | andOp | orOp
  deriving DecidableEq, Repr

/-- Python expressions in the embedded fragment.  `other` stands for any
expression node outside the fragment; both translators handle such nodes
through their `ast.unparse` fallback, which is supplied as an oracle. -/
inductive PyExpr where
  | const (c : PyConst)
  | name (id : String)
  | attribute (value : PyExpr) (attr : String)
  | subscript (value : PyExpr) (index : PyExpr)
  | subscriptSlice (value : PyExpr) (lower upper : Option PyExpr)
  | binop (left : PyExpr) (op : PyBinOp) (right : PyExpr)
  | unaryop (op : PyUnOp) (operand : PyExpr)
  | boolop (op : PyBoolOp) (values : List PyExpr)
  | compare (left : PyExpr) (rest : List (PyCmpOp × PyExpr))
  | call (func : PyExpr) (args : List PyExpr)
  | ifexp (test body orelse : PyExpr)
  | listlit (elts : List PyExpr)
  | other (unparsed : String)

/-- Statements handled by `NetLogoTranslator` (`netlogo_translator.py`).
`other` covers statement nodes outside the fragment (handled by
`generic_visit`, i.e. `ast.unparse`). -/
inductive NTStmt where
  | assign (targets : List PyExpr) (value : PyExpr)
  | augAssign (target : PyExpr) (op : PyBinOp) (value : PyExpr)
  | ret (value : Option PyExpr)
  | ifS (test : PyExpr) (body : List NTStmt) (orelse : List NTStmt)
  | forS (target : PyExpr) (iter : PyExpr) (body : List NTStmt)
  | whileS (test : PyExpr) (body : List NTStmt)
  | exprS (value : PyExpr)
  | other (unparsed : String)

namespace NT

/-- `visit_Add` … `visit_FloorDiv` of `NetLogoTranslator`. -/
def opStr : PyBinOp → String
  | .add => "+"
  | .sub => "-"
  | .mult => "*"
  | .div => "/"
  | .mod => "mod"
  | .pow => "^"
  | .floorDiv => "/"

/-- `visit_Eq` … `visit_NotIn` of `NetLogoTranslator`. -/
def cmpStr : PyCmpOp → String
  | .eq => "="
  | .ne => "!="
  | .lt => "<"
  | .le => "<="
  | .gt => ">"
  | .ge => ">="
  | .isIn => "member?"
  | .notIn => "not member?"

/-- Whether the operator is `ast.In` or `ast.NotIn` (reversed-argument
emission in `visit_Compare`). -/
def isMembershipOp : PyCmpOp → Bool
  | .isIn => true
  | .notIn => true
  | _ => false

/-- `visit_And` / `visit_Or`. -/
def boolOpStr : PyBoolOp → String
  | .andOp => "and"
  | .orOp => "or"

/-- `visit_USub` / `visit_Not`. -/
def unOpStr : PyUnOp → String
  | .usub => "-"
  | .notOp => "not"

/-- `visit_Constant` of `NetLogoTranslator`: booleans lower-case, strings
quoted, anything else `str(value)`. -/
def visitConstant : PyConst → String
  | .bool b => if b then "true" else "false"
  | .str s => "\"" ++ s ++ "\""
  | .num lit => lit
  | .pynone => "None"

/-- The keyword list of `_visit_arg`'s raw-string heuristic. -/
def rawStringKeywords : List String := ["set ", "ask", "create", "random"]

/-- `method_map.get(name, name)` of `visit_Call` for non-`self` receivers. -/
def methodMapGet (m : String) : String :=
  if m == "ask" then "ask"
  else if m == "create" then "create-turtles"
  else if m == "setxy" then "setxy"
  else if m == "set_heading" then "set heading"
  else if m == "forward" then "forward"
  else if m == "right" then "right"
  else if m == "in_radius" then "in-radius"
  else if m == "patch_here" then "patch-here"
  else m

/-- `builtin_map.get(name, name)` of `visit_Call`; note `float` maps to the
empty string exactly as in the source. -/
def builtinMapGet (f : String) : String :=
  if f == "abs" then "abs"
  else if f == "round" then "round"
  else if f == "int" then "floor"
  else if f == "float" then ""
  else if f == "len" then "length"
  else if f == "max" then "max"
  else if f == "min" then "min"
  else if f == "print" then "print"
  else if f == "sum" then "sum"
  else f

mutual

/-- Expression dispatch of `NetLogoTranslator.visit`; each arm is the
correspondingly named `visit_*` method.  `unpE` is the `ast.unparse`
oracle used by the fallback paths (`visit_Attribute` on non-`self`
receivers, complex subscripts, unsupported call shapes, `generic_visit`). -/
def visitExpr (unpE : PyExpr → String) : PyExpr → String
  | .const c => visitConstant c
  | .name id => id
  | .attribute value attr =>
    match value with
    | .name id =>
      if id == "self" then attr else unpE (.attribute (.name id) attr)
    | v => unpE (.attribute v attr)
  | .subscript value index =>
    match index with
    | .const (.str key) => key
    | .const c => "item " ++ visitConstant c ++ " " ++ visitExpr unpE value
    | .name id => "item " ++ id ++ " " ++ visitExpr unpE value
    | .unaryop op operand =>
      "item " ++ visitExpr unpE (.unaryop op operand) ++ " " ++ visitExpr unpE value
    | idx => unpE (.subscript value idx)
  | .subscriptSlice value lower upper =>
    let listExpr := visitExpr unpE value
    let start := match lower with
      | some l => visitExpr unpE l
      | none => "0"
    let stop := match upper with
      | some u => visitExpr unpE u
      | none => "length " ++ listExpr
    "sublist " ++ listExpr ++ " " ++ start ++ " " ++ stop
  | .binop left op right =>
    "(" ++ visitExpr unpE left ++ " " ++ opStr op ++ " " ++ visitExpr unpE right ++ ")"
  | .unaryop op operand =>
    let o := visitExpr unpE operand
    match op, operand with
    | .usub, .const _ => "-" ++ o
    | op, _ => unOpStr op ++ " " ++ o
  | .boolop op values =>
    String.intercalate (" " ++ boolOpStr op ++ " ") (visitExprList unpE values)
  | .compare left rest =>
    match rest with
    | [(op, right)] =>
      let l := visitExpr unpE left
      let r := visitExpr unpE right
      if isMembershipOp op then cmpStr op ++ " " ++ l ++ " " ++ r
      else "(" ++ l ++ " " ++ cmpStr op ++ " " ++ r ++ ")"
    | rest =>
      String.intercalate " and " (comparePartList unpE (visitExpr unpE left) rest)
  | .call func args =>
    match func with
    | .attribute obj methodName =>
      match obj with
      | .name oid =>
        if oid == "self" then
          let as_ := visitArgList unpE args
          if as_.isEmpty then methodName
          else methodName ++ " " ++ String.intercalate " " as_
        else
          let as_ := visitArgList unpE args
          let nlMethod := methodMapGet methodName
          if as_.isEmpty then nlMethod
          else nlMethod ++ " " ++ String.intercalate " " as_
      | _ =>
        let as_ := visitArgList unpE args
        let nlMethod := methodMapGet methodName
        if as_.isEmpty then nlMethod
        else nlMethod ++ " " ++ String.intercalate " " as_
    | .name funcName =>
      let as_ := visitArgList unpE args
      let nlFunc := builtinMapGet funcName
      if as_.isEmpty then (if nlFunc == "" then funcName else nlFunc)
      else
        let argsStr := String.intercalate " " as_
        if nlFunc == "" then funcName ++ " " ++ argsStr
        else nlFunc ++ " " ++ argsStr
    | func => unpE (.call func args)
  | .ifexp test body orelse =>
    "ifelse-value " ++ visitExpr unpE test ++ " " ++ visitExpr unpE body
      ++ " " ++ visitExpr unpE orelse
  | .listlit elts =>
    "[" ++ String.intercalate " " (visitExprList unpE elts) ++ "]"
  | .other unparsed => unparsed

/-- `[self.visit(v) for v in …]`. -/
def visitExprList (unpE : PyExpr → String) : List PyExpr → List String
  | [] => []
  | e :: es => visitExpr unpE e :: visitExprList unpE es

/-- The chained-comparison loop of `visit_Compare`: one part per
`(op, comparator)` pair; `leftStr` is the already-visited text of the
running left operand, which the loop shifts to the previous comparator. -/
def comparePartList (unpE : PyExpr → String) (leftStr : String) :
    List (PyCmpOp × PyExpr) → List String
  | [] => []
  | (op, comparator) :: rest =>
    let r := visitExpr unpE comparator
    let part :=
      if isMembershipOp op then cmpStr op ++ " " ++ leftStr ++ " " ++ r
      else "(" ++ leftStr ++ " " ++ cmpStr op ++ " " ++ r ++ ")"
    part :: comparePartList unpE r rest

/-- `[self._visit_arg(a) for a in args]`: string literals that contain a
NetLogo-ish keyword are emitted unquoted, list literals are flattened,
anything else is visited. -/
def visitArgList (unpE : PyExpr → String) : List PyExpr → List String
  | [] => []
  | e :: es =>
    let a := match e with
      | .const (.str s) =>
        if rawStringKeywords.any (fun kw => strContains s kw) then s
        else "\"" ++ s ++ "\""
      | .listlit elts => String.intercalate " " (visitArgList unpE elts)
      | e => visitExpr unpE e
    a :: visitArgList unpE es

end

mutual

/-- Statement dispatch of `NetLogoTranslator.visit`; each arm is the
correspondingly named `visit_*` method, with `unpS` the `ast.unparse`
oracle for statement-level fallbacks. -/
def visitStmt (unpE : PyExpr → String) (unpS : NTStmt → String) : NTStmt → String
  | .assign targets value =>
    match targets with
    | [target] =>
      match target with
      | .attribute (.name oid) fieldName =>
        if oid == "self" then
          "set " ++ fieldName ++ " " ++ visitExpr unpE value
        else unpS (.assign [.attribute (.name oid) fieldName] value)
      | .subscript obj index =>
        let valueExpr := visitExpr unpE value
        match index with
        | .const (.str key) => "set " ++ key ++ " " ++ valueExpr
        | index =>
          "; TODO: set " ++ visitExpr unpE obj ++ "[" ++ visitExpr unpE index
            ++ "] to " ++ valueExpr
      | .subscriptSlice obj lower upper =>
        let valueExpr := visitExpr unpE value
        "; TODO: set " ++ visitExpr unpE obj ++ "["
          ++ unpE (.subscriptSlice obj lower upper) ++ "] to " ++ valueExpr
      | .name varName => "set " ++ varName ++ " " ++ visitExpr unpE value
      | target => unpS (.assign [target] value)
    | targets => unpS (.assign targets value)
  | .augAssign target op value =>
    match target with
    | .attribute (.name oid) fieldName =>
      if oid == "self" then
        "set " ++ fieldName ++ " " ++ fieldName ++ " " ++ opStr op ++ " "
          ++ visitExpr unpE value
      else unpS (.augAssign (.attribute (.name oid) fieldName) op value)
    | .subscript _ (.const (.str key)) =>
      "set " ++ key ++ " (" ++ key ++ " " ++ opStr op ++ " "
        ++ visitExpr unpE value ++ ")"
    | .name varName =>
      "set " ++ varName ++ " (" ++ varName ++ " " ++ opStr op ++ " "
        ++ visitExpr unpE value ++ ")"
    | target => unpS (.augAssign target op value)
  | .ret value =>
    match value with
    | none => "stop"
    | some v => "report " ++ visitExpr unpE v
  | .ifS test body orelse =>
    let condition := visitExpr unpE test
    let bodyStr := String.intercalate "\n  " (visitStmtList unpE unpS body)
    match orelse with
    | [] => "if " ++ condition ++ " [\n  " ++ bodyStr ++ "\n]"
    | x :: xs =>
      match x, xs with
      | .ifS t2 b2 o2, [] =>
        "if " ++ condition ++ " [\n  " ++ bodyStr ++ "\n]\n"
          ++ visitStmt unpE unpS (.ifS t2 b2 o2)
      | x, xs =>
        let elseBody := String.intercalate "\n  " (visitStmtList unpE unpS (x :: xs))
        "if " ++ condition ++ " [\n  " ++ bodyStr ++ "\n]\n[\n  " ++ elseBody ++ "\n]"
  | .forS target iter body =>
    match iter with
    | .call (.name fid) args =>
      if fid == "range" then
        let bodyStr := String.intercalate "\n  " (visitStmtList unpE unpS body)
        match args with
        | [n] => "repeat " ++ visitExpr unpE n ++ " [\n  " ++ bodyStr ++ "\n]"
        | a :: b :: rest =>
          match target with
          | .name var =>
            let start := visitExpr unpE a
            let stop := visitExpr unpE b
            match rest with
            | [c] =>
              let step := visitExpr unpE c
              "set " ++ var ++ " " ++ start ++ "\nwhile [" ++ var ++ " < " ++ stop
                ++ "] [\n  " ++ bodyStr ++ "\n  set " ++ var ++ " (" ++ var
                ++ " + " ++ step ++ ")\n]"
            | _ =>
              "set " ++ var ++ " " ++ start ++ "\nwhile [" ++ var ++ " < " ++ stop
                ++ "] [\n  " ++ bodyStr ++ "\n  set " ++ var ++ " (" ++ var
                ++ " + 1)\n]"
          | tgt => "; TODO: for " ++ unpE tgt ++ " in " ++ unpE iter
        | [] => "; TODO: for " ++ unpE target ++ " in " ++ unpE iter
      else "; TODO: for " ++ unpE target ++ " in " ++ unpE iter
    | iter => "; TODO: for " ++ unpE target ++ " in " ++ unpE iter
  | .whileS test body =>
    "while [" ++ visitExpr unpE test ++ "] [\n  "
      ++ String.intercalate "\n  " (visitStmtList unpE unpS body) ++ "\n]"
  | .exprS value => visitExpr unpE value
  | .other unparsed => unparsed

/-- `[self.visit(stmt) for stmt in body]`. -/
def visitStmtList (unpE : PyExpr → String) (unpS : NTStmt → String) :
    List NTStmt → List String
  | [] => []
  | s :: ss => visitStmt unpE unpS s :: visitStmtList unpE unpS ss

end

/-- `NetLogoTranslator.translate`: `parsed` is the outcome of the black-box
`ast.parse` call (`none` when it raises `SyntaxError`).  The source's
`except SyntaxError` branch is the `none` arm; the `agent_fields` argument
of the source is omitted because no `visit_*` method ever reads it. -/
def translate (unpE : PyExpr → String) (unpS : NTStmt → String)
    (source : String) (parsed : Option (List NTStmt)) : String :=
  match parsed with
  | none => "; UNPARSED: " ++ source
  | some body =>
    match body with
    | [stmt] => visitStmt unpE unpS stmt
    | stmts => String.intercalate "\n" (visitStmtList unpE unpS stmts)

end NT

/-! ## The model-subclass converter (`xnlogo/parser/py_to_netlogo.py`)

`PythonToNetLogoConverter` is stateful; its mutable attributes become the
`Conv.CState` record, and each `visit_*` method becomes a state-passing
function.  The statement fragment covers the node kinds the converter has
dedicated `visit_*` methods for, minus `for` loops, lambdas, comprehensions
and f-strings (none of which the checked claims range over); expression
nodes outside the fragment take the `ast.unparse`-with-quote-normalization
fallback, supplied as the oracle `unpE`. -/

/-- Statements handled by the embedded fragment of
`PythonToNetLogoConverter`. -/
inductive ConvStmt where
  | assign (targets : List PyExpr) (value : PyExpr)
  | augAssign (target : PyExpr) (op : PyBinOp) (value : PyExpr)
  | ifS (test : PyExpr) (body : List ConvStmt) (orelse : List ConvStmt)
  | whileS (test : PyExpr) (body : List ConvStmt)
  | exprS (value : PyExpr)
  | ret (value : Option PyExpr)
  | breakS
  | continueS

namespace Conv

/-- The converter's mutable attributes (`__init__` of
`PythonToNetLogoConverter`).  The unused `pending_statements` attribute is
omitted. -/
structure CState where
  netlogoCode : List String := []
  indentLevel : Nat := 0
  loopVars : List String := []
  contextParams : List String := []
  createdTurtles : List String := []
  localVars : List String := []
  declaredVars : List String := []

/-- Python `set.add`: no-op when already present, modelled on an
insertion-ordered list (only membership is ever queried). -/
def pyAdd (l : List String) (x : String) : List String :=
  if l.contains x then l else l ++ [x]

/-- `self._indent()`: two spaces per indentation level. -/
def indentStr : Nat → String
  | 0 => ""
  | n + 1 => "  " ++ indentStr n

/-- Append one line to `self.netlogo_code`. -/
def emit (s : CState) (line : String) : CState :=
  { s with netlogoCode := s.netlogoCode ++ [line] }

/-- The NetLogo color names of `_convert_constant` (unquoted identifiers). -/
def netlogoColors : List String :=
  ["black", "gray", "white", "red", "orange", "brown", "yellow", "green",
   "lime", "turquoise", "cyan", "sky", "blue", "violet", "magenta", "pink"]

/-- The escape chain of `_convert_constant` and the f-string case:
backslashes first, then newlines, tabs and double quotes. -/
def pyEscape (s : String) : String :=
  (((s.pyReplace "\\" "\\\\").pyReplace "\n" "\\n").pyReplace "\t"
    "\\t").pyReplace "\"" "\\\""

/-- `_convert_constant`: booleans lower-case, color-name strings unquoted
and lower-cased, other strings escaped and quoted, `None` is `nobody`,
anything else `str(value)`. -/
def convertConstant : PyConst → String
  | .bool b => if b then "true" else "false"
  | .str v =>
    if netlogoColors.contains (pyLower v) then pyLower v
    else "\"" ++ pyEscape v ++ "\""
  | .num lit => lit
  | .pynone => "nobody"

/-- The comparison operator map of `_convert_compare` (default `=`). -/
def cmpOpStr : PyCmpOp → String
  | .eq => "="
  | .ne => "!="
  | .lt => "<"
  | .le => "<="
  | .gt => ">"
  | .ge => ">="
  | _ => "="

/-- The binary operator map of `_convert_binop` (default `+`). -/
def binOpStr : PyBinOp → String
  | .add => "+"
  | .sub => "-"
  | .mult => "*"
  | .div => "/"
  | .mod => "mod"
  | .pow => "^"
  | .floorDiv => "+"

/-- The operator map of `visit_AugAssign` (only `+ - * /`; default `+`). -/
def augOpStr : PyBinOp → String
  | .add => "+"
  | .sub => "-"
  | .mult => "*"
  | .div => "/"
  | _ => "+"

/-- The turtle-command method names of `_convert_call`. -/
def movementMethods : List String :=
  ["forward", "back", "right", "left", "face", "move_to", "die"]

/-- Python `str.strip('"')`: remove leading and trailing double quotes. -/
def stripQuotes (s : String) : String :=
  String.mk (((s.data.dropWhile (· == '"')).reverse.dropWhile (· == '"')).reverse)

mutual

/-- `_convert_expr`; `unpE` is the `ast.unparse`-plus-quote-normalization
fallback, `lv`/`cp` are `self.loop_vars` / `self.context_params` (the only
converter state expression conversion reads). -/
def convertExpr (unpE : PyExpr → String) (lv cp : List String) : PyExpr → String
  | .const c => convertConstant c
  | .name id => id
  | .attribute value attr =>
    let v := convertExpr unpE lv cp value
    if v == "self" then attr
    else if lv.contains v || cp.contains v then attr
    else if pyStartsWith v "self." then attr
    else if v == "patch" || v == "p" then attr
    else "[" ++ attr ++ "] of " ++ v
  | .call func args =>
    -- `_convert_call`: the `ast.Attribute`-receiver `elif` chain first; a
    -- branch that falls through without returning continues into the
    -- standalone-function chain with `func_name` still the empty string.
    match func with
    | .attribute objE methodName =>
      let obj := convertExpr unpE lv cp objE
      let attrRes : Option String :=
        if methodName == "all" then some (obj.pyReplace "self." "")
        else if methodName == "filter" then
          -- keyword-argument and lambda filters lie outside the fragment;
          -- the remaining shapes fall through without returning
          none
        else if methodName == "count" then
          some ("count " ++ obj.pyReplace "self." "")
        else if methodName == "sample" then
          match args with
          | a :: _ =>
            some ("n-of " ++ convertExpr unpE lv cp a ++ " "
              ++ obj.pyReplace "self." "")
          | [] => none
        else if methodName == "one" then some ("one-of " ++ obj.pyReplace "self." "")
        else if methodName == "min_by" || methodName == "max_by" then
          -- the only returning shape takes a lambda, which is outside the
          -- fragment
          none
        else if movementMethods.contains methodName then
          let argsStr :=
            String.intercalate " " (movementArgList unpE lv cp methodName args)
          let nlMethod := methodName.pyReplace "_" "-"
          if argsStr == "" then some nlMethod else some (nlMethod ++ " " ++ argsStr)
        else if methodName == "distance_to" then
          match args with
          | a :: _ =>
            let target := convertExpr unpE lv cp a
            if lv.contains target then some "distance myself"
            else some ("distance " ++ target)
          | [] => none
        else if methodName == "turtles_in_radius" then
          match args with
          | a :: _ => some ("other turtles in-radius " ++ convertExpr unpE lv cp a)
          | [] => none
        else if methodName == "turtles_in_cone" then
          match args with
          | a :: b :: _ =>
            some ("other turtles in-cone " ++ convertExpr unpE lv cp a ++ " "
              ++ convertExpr unpE lv cp b)
          | _ => none
        else if methodName == "neighbors_within" then
          match args with
          | a :: _ => some ("other turtles in-radius " ++ convertExpr unpE lv cp a)
          | [] => none
        else if methodName == "create" then
          match args with
          | a :: _ =>
            some ("create-" ++ obj.pyReplace "self." "" ++ " "
              ++ convertExpr unpE lv cp a)
          | [] => none
        else if methodName == "patch" then some "patch-here"
        else
          let objR := obj.pyReplace "self." ""
          if objR == "self" then
            let argsStr := String.intercalate " " (selfArgList unpE lv cp args)
            if argsStr == "" then some methodName
            else some (methodName ++ " " ++ argsStr)
          else
            let argsStr := String.intercalate " " (convertExprList unpE lv cp args)
            if argsStr == "" then some (objR ++ " " ++ methodName)
            else some (objR ++ " " ++ methodName ++ " " ++ argsStr)
      match attrRes with
      | some s => s
      | none =>
        -- standalone chain entered with the empty `func_name`: none of the
        -- named functions match, so only its generic tail is reachable
        let argsStr := String.intercalate " " (convertExprList unpE lv cp args)
        if argsStr == "" then "" else " " ++ argsStr
    | .name funcName =>
      if funcName == "patches" then "patches"
      else if funcName == "turtles" then "turtles"
      else if funcName == "print" then
        match args with
        | a :: _ => "print " ++ convertExpr unpE lv cp a
        | [] => "print"
      else if funcName == "reset_ticks" then "reset-ticks"
      else if funcName == "tick" then "tick"
      else if funcName == "clear_all" then "clear-all"
      else if funcName == "random_float" then
        match args with
        | a :: _ => "random-float " ++ convertExpr unpE lv cp a
        | [] => "random-float 100"
      else if funcName == "random" then
        match args with
        | a :: _ => "random " ++ convertExpr unpE lv cp a
        | [] => "random 100"
      else if funcName == "min" then
        "min (list " ++ String.intercalate " " (convertExprList unpE lv cp args)
          ++ ")"
      else if funcName == "max" then
        "max (list " ++ String.intercalate " " (convertExprList unpE lv cp args)
          ++ ")"
      else if funcName == "len" then
        match args with
        | a :: _ =>
          let s := convertExpr unpE lv cp a
          match a with
          | .name _ => "count " ++ s
          | _ => "length " ++ s
        | [] => ""
      else if funcName == "mean" then
        match args with
        | a :: _ => "mean " ++ convertExpr unpE lv cp a
        | [] => ""
      else if funcName == "setattr" then
        match args with
        | _ :: a1 :: a2 :: _ =>
          "set " ++ stripQuotes (convertExpr unpE lv cp a1) ++ " "
            ++ convertExpr unpE lv cp a2
        | _ => ""
      else
        let argsStr := String.intercalate " " (convertExprList unpE lv cp args)
        if argsStr == "" then funcName else funcName ++ " " ++ argsStr
    | _ =>
      -- neither `ast.Name` nor `ast.Attribute`: `func_name` stays empty and
      -- only the generic tail of the standalone chain is reachable
      let argsStr := String.intercalate " " (convertExprList unpE lv cp args)
      if argsStr == "" then "" else " " ++ argsStr
  | .binop left op right =>
    match left, op, right with
    | .call (.name "random_float") [], .mult, .const c => "random-float " ++ c.pyStr
    | left, op, right =>
      "(" ++ convertExpr unpE lv cp left ++ " " ++ binOpStr op ++ " "
        ++ convertExpr unpE lv cp right ++ ")"
  | .compare left rest =>
    String.intercalate " "
      (compareParts unpE lv cp left [convertExpr unpE lv cp left] rest)
  | .boolop op values =>
    String.intercalate (" " ++ (if op == .andOp then "and" else "or") ++ " ")
      (parenList unpE lv cp values)
  | .unaryop op operand =>
    let o := convertExpr unpE lv cp operand
    match op with
    | .notOp => "not (" ++ o ++ ")"
    | .usub => "(- " ++ o ++ ")"
  | .listlit elts =>
    "[ " ++ String.intercalate " " (convertExprList unpE lv cp elts) ++ " ]"
  | .ifexp test body orelse =>
    let t := convertExpr unpE lv cp test
    let b := convertExpr unpE lv cp body
    let o := convertExpr unpE lv cp orelse
    let t := match test with
      | .name _ =>
        match body, orelse with
        | _, .const .pynone => t ++ " != nobody"
        | .const .pynone, _ => t ++ " != nobody"
        | _, _ => t
      | _ => t
    "ifelse-value (" ++ t ++ ") [ " ++ b ++ " ] [ " ++ o ++ " ]"
  | .subscript value index => unpE (.subscript value index)
  | .subscriptSlice value lower upper => unpE (.subscriptSlice value lower upper)
  | .other unparsed => unparsed

/-- `[self._convert_expr(e) for e in …]`. -/
def convertExprList (unpE : PyExpr → String) (lv cp : List String) :
    List PyExpr → List String
  | [] => []
  | e :: es => convertExpr unpE lv cp e :: convertExprList unpE lv cp es

/-- `_convert_boolop`'s per-operand parenthesization. -/
def parenList (unpE : PyExpr → String) (lv cp : List String) :
    List PyExpr → List String
  | [] => []
  | e :: es => ("(" ++ convertExpr unpE lv cp e ++ ")") :: parenList unpE lv cp es

/-- The comparator loop of `_convert_compare`.  `origLeft` is `node.left`
(consulted afresh at every step by the loop-variable special case, which
resets the accumulated parts to `self` / `myself`). -/
def compareParts (unpE : PyExpr → String) (lv cp : List String)
    (origLeft : PyExpr) (parts : List String) :
    List (PyCmpOp × PyExpr) → List String
  | [] => parts
  | (op, comparator) :: rest =>
    let nlOp := cmpOpStr op
    let comp := convertExpr unpE lv cp comparator
    let pc : List String × String :=
      match origLeft, comparator with
      | .name l, .name r =>
        if lv.contains l && cp.contains r then (["self"], "myself")
        else (parts, comp)
      | _, _ => (parts, comp)
    compareParts unpE lv cp origLeft (pc.1 ++ [nlOp, pc.2]) rest

/-- The turtle-command argument loop: `move_to` with a loop variable maps
`patch`/`p` to `patch-here` and drops other loop variables. -/
def movementArgList (unpE : PyExpr → String) (lv cp : List String)
    (method : String) : List PyExpr → List String
  | [] => []
  | a :: rest =>
    let argStr := convertExpr unpE lv cp a
    if method == "move_to" && lv.contains argStr then
      if argStr == "patch" || argStr == "p" then
        "patch-here" :: movementArgList unpE lv cp method rest
      else movementArgList unpE lv cp method rest
    else argStr :: movementArgList unpE lv cp method rest

/-- The `self.method(...)` argument loop of the generic method-call branch:
arguments naming a loop variable are dropped (implicit in `ask` context). -/
def selfArgList (unpE : PyExpr → String) (lv cp : List String) :
    List PyExpr → List String
  | [] => []
  | a :: rest =>
    let argStr := convertExpr unpE lv cp a
    if lv.contains argStr then selfArgList unpE lv cp rest
    else argStr :: selfArgList unpE lv cp rest

end

/-- Whether the value is a `….create(…)` call: the guard of the first
branch of `visit_Assign` (`isinstance(node.value, ast.Call)` with an
`ast.Attribute` function whose attribute is `create`). -/
def isCreateCall : PyExpr → Bool
  | .call (.attribute _ a) _ => a == "create"
  | _ => false

mutual

/-- Whether an `ast.Call` node anywhere below the expression passes `var`
as a positional argument or calls a method on it (`ast.walk` inner loop of
`_is_object_used_in_body`). -/
def exprUsesObject (var : String) : PyExpr → Bool
  | .const _ => false
  | .name _ => false
  | .attribute value _ => exprUsesObject var value
  | .subscript value index => exprUsesObject var value || exprUsesObject var index
  | .subscriptSlice value lower upper =>
    exprUsesObject var value
      || (match lower with | some l => exprUsesObject var l | none => false)
      || (match upper with | some u => exprUsesObject var u | none => false)
  | .binop left _ right => exprUsesObject var left || exprUsesObject var right
  | .unaryop _ operand => exprUsesObject var operand
  | .boolop _ values => exprListUsesObject var values
  | .compare left rest =>
    exprUsesObject var left || cmpListUsesObject var rest
  | .call func args =>
    args.any (fun a => match a with | .name id => id == var | _ => false)
      || (match func with
          | .attribute (.name id) _ => id == var
          | _ => false)
      || exprUsesObject var func || exprListUsesObject var args
  | .ifexp test body orelse =>
    exprUsesObject var test || exprUsesObject var body || exprUsesObject var orelse
  | .listlit elts => exprListUsesObject var elts
  | .other _ => false

def exprListUsesObject (var : String) : List PyExpr → Bool
  | [] => false
  | e :: es => exprUsesObject var e || exprListUsesObject var es

def cmpListUsesObject (var : String) : List (PyCmpOp × PyExpr) → Bool
  | [] => false
  | (_, e) :: es => exprUsesObject var e || cmpListUsesObject var es

end

mutual

/-- `ast.walk` over one statement for `_is_object_used_in_body`. -/
def stmtUsesObject (var : String) : ConvStmt → Bool
  | .assign targets value =>
    exprListUsesObject var targets || exprUsesObject var value
  | .augAssign target _ value =>
    exprUsesObject var target || exprUsesObject var value
  | .ifS test body orelse =>
    exprUsesObject var test || stmtListUsesObject var body
      || stmtListUsesObject var orelse
  | .whileS test body => exprUsesObject var test || stmtListUsesObject var body
  | .exprS value => exprUsesObject var value
  | .ret value =>
    match value with
    | some v => exprUsesObject var v
    | none => false
  | .breakS => false
  | .continueS => false

def stmtListUsesObject (var : String) : List ConvStmt → Bool
  | [] => false
  | s :: ss => stmtUsesObject var s || stmtListUsesObject var ss

end

/-- `_is_object_used_in_body`. -/
def isObjectUsedInBody (var : String) (body : List ConvStmt) : Bool :=
  stmtListUsesObject var body

/-- The truthiness rewrite guard of `visit_If`: the test is a bare name
that the body uses as an object. -/
def truthyGuard (test : PyExpr) (body : List ConvStmt) : Bool :=
  match test with
  | .name v => isObjectUsedInBody v body
  | _ => false

/-- Whether the `orelse` list is a single `if` statement (Python `elif`). -/
def isSingleIf : List ConvStmt → Bool
  | [.ifS _ _ _] => true
  | _ => false

mutual

/-- `ast.walk` collection of plain-name assignment targets, for
`_analyze_local_variables`. -/
def collectAssignNames : ConvStmt → List String
  | .assign targets _ =>
    targets.foldr
      (fun t acc => match t with | .name id => id :: acc | _ => acc) []
  | .ifS _ body orelse =>
    collectAssignNamesList body ++ collectAssignNamesList orelse
  | .whileS _ body => collectAssignNamesList body
  | _ => []

def collectAssignNamesList : List ConvStmt → List String
  | [] => []
  | s :: ss => collectAssignNames s ++ collectAssignNamesList ss

end

/-- `_analyze_local_variables`: add every plain-name assignment target not
tracked as a loop variable or context parameter to `self.local_vars`. -/
def analyzeLocals (stmt : ConvStmt) (s : CState) : CState :=
  { s with
    localVars :=
      (collectAssignNames stmt).foldl
        (fun acc v =>
          if s.loopVars.contains v || s.contextParams.contains v then acc
          else pyAdd acc v)
        s.localVars }

mutual

/-- Statement dispatch of `PythonToNetLogoConverter.visit` over the
embedded fragment; each arm is the correspondingly named `visit_*` method,
with the converter state threaded explicitly. -/
def visitStmt (unpE : PyExpr → String) : ConvStmt → CState → CState
  | .assign targets value, s => visitAssignTargets unpE value targets s
  | .augAssign target op value, s =>
    let t := (convertExpr unpE s.loopVars s.contextParams target).pyReplace "self." ""
    let v := convertExpr unpE s.loopVars s.contextParams value
    emit s (indentStr s.indentLevel ++ "set " ++ t ++ " (" ++ t ++ " "
      ++ augOpStr op ++ " " ++ v ++ ")")
  | .ifS test body orelse, s =>
    let test0 := convertExpr unpE s.loopVars s.contextParams test
    let testStr := if truthyGuard test body then test0 ++ " != nobody" else test0
    let hasElse := !orelse.isEmpty && !isSingleIf orelse
    let keyword := if hasElse then "ifelse" else "if"
    let s := emit s (indentStr s.indentLevel ++ keyword ++ " " ++ testStr ++ " [")
    let saved := s.declaredVars
    let s1 := { s with indentLevel := s.indentLevel + 1 }
    let s2 := visitStmts unpE body s1
    let s3 := { s2 with indentLevel := s2.indentLevel - 1 }
    match orelse with
    | [] =>
      -- standalone `if`: close the block and restore the declared set so
      -- sibling blocks can re-declare the same locals
      let s4 := emit s3 (indentStr s3.indentLevel ++ "]")
      { s4 with declaredVars := saved }
    | x :: xs =>
      match x, xs with
      | .ifS t2 b2 o2, [] =>
        -- `elif`: close the current block, restore, visit the nested `if`
        let s4 := emit s3 (indentStr s3.indentLevel ++ "]")
        let s5 := { s4 with declaredVars := saved }
        visitStmt unpE (.ifS t2 b2 o2) s5
      | x, xs =>
        -- true `else` clause: `ifelse` second block
        let s4 := emit s3 (indentStr s3.indentLevel ++ "] [")
        let s5 := { s4 with indentLevel := s4.indentLevel + 1, declaredVars := saved }
        let s6 := visitStmts unpE (x :: xs) s5
        let s7 := { s6 with indentLevel := s6.indentLevel - 1 }
        emit s7 (indentStr s7.indentLevel ++ "]")
  | .whileS test body, s =>
    let t := convertExpr unpE s.loopVars s.contextParams test
    let s := emit s (indentStr s.indentLevel ++ "while [ " ++ t ++ " ] [")
    let s1 := { s with indentLevel := s.indentLevel + 1 }
    let s2 := visitStmts unpE body s1
    let s3 := { s2 with indentLevel := s2.indentLevel - 1 }
    emit s3 (indentStr s3.indentLevel ++ "]")
  | .exprS value, s =>
    let e := convertExpr unpE s.loopVars s.contextParams value
    let isConst := match value with | .const _ => true | _ => false
    if e != "" && !isConst then emit s (indentStr s.indentLevel ++ e) else s
  | .ret value, s =>
    match value with
    | some v =>
      emit s (indentStr s.indentLevel ++ "report "
        ++ convertExpr unpE s.loopVars s.contextParams v)
    | none => emit s (indentStr s.indentLevel ++ "stop")
  | .breakS, s => emit s (indentStr s.indentLevel ++ "stop")
  | .continueS, s =>
    emit s (indentStr s.indentLevel
      ++ "; continue (not directly supported in NetLogo)")

/-- The `for target in node.targets` loop of `visit_Assign`. -/
def visitAssignTargets (unpE : PyExpr → String) (value : PyExpr) :
    List PyExpr → CState → CState
  | [], s => s
  | target :: rest, s =>
    let valueStr := convertExpr unpE s.loopVars s.contextParams value
    let s :=
      match target with
      | .name tid =>
        if isCreateCall value then
          -- `var = agents.create(n)`: remember the created-turtle variable
          emit { s with createdTurtles := pyAdd s.createdTurtles tid }
            (indentStr s.indentLevel ++ "set " ++ tid ++ " " ++ valueStr)
        else
          let targetStr :=
            (convertExpr unpE s.loopVars s.contextParams (.name tid)).pyReplace
              "self." ""
          if s.localVars.contains tid then
            if !s.declaredVars.contains tid then
              emit { s with declaredVars := pyAdd s.declaredVars tid }
                (indentStr s.indentLevel ++ "let " ++ targetStr ++ " " ++ valueStr)
            else
              emit s (indentStr s.indentLevel ++ "set " ++ targetStr ++ " " ++ valueStr)
          else
            emit s (indentStr s.indentLevel ++ "set " ++ targetStr ++ " " ++ valueStr)
      | .attribute tval attr =>
        let obj := convertExpr unpE s.loopVars s.contextParams tval
        if s.createdTurtles.contains obj then
          emit s (indentStr s.indentLevel ++ "set " ++ attr ++ " " ++ valueStr)
        else if obj == "self" || s.loopVars.contains obj
            || s.contextParams.contains obj then
          emit s (indentStr s.indentLevel ++ "set " ++ attr ++ " " ++ valueStr)
        else
          emit s (indentStr s.indentLevel ++ "; TODO: set [" ++ attr ++ "] of "
            ++ obj ++ " to " ++ valueStr)
      | target =>
        let targetStr :=
          (convertExpr unpE s.loopVars s.contextParams target).pyReplace "self." ""
        emit s (indentStr s.indentLevel ++ "set " ++ targetStr ++ " " ++ valueStr)
    visitAssignTargets unpE value rest s

/-- Sequential statement visitation (the `for stmt in …: self.visit(stmt)`
loops of the converter). -/
def visitStmts (unpE : PyExpr → String) : List ConvStmt → CState → CState
  | [], s => s
  | stmt :: rest, s => visitStmts unpE rest (visitStmt unpE stmt s)

end

/-- `PythonToNetLogoConverter.convert`: reset the output buffer, analyze
local variables, visit, and join the emitted lines. -/
def convert (unpE : PyExpr → String) (stmt : ConvStmt) (s : CState) :
    String × CState :=
  let s := { s with netlogoCode := [] }
  let s := analyzeLocals stmt s
  let s := visitStmt unpE stmt s
  (String.intercalate "\n" s.netlogoCode, s)

/-- The per-statement conversion loop of
`_ModuleAnalyzer._statements_from_model_method` (no-guard-clause path):
skip docstrings, convert each statement with one shared converter, keep
the non-blank outputs as already-NetLogo raw statements. -/
def convertMethodBody (unpE : PyExpr → String) :
    List ConvStmt → CState → List String
  | [], _ => []
  | stmt :: rest, s =>
    match stmt with
    | .exprS (.const _) => convertMethodBody unpE rest s
    | stmt =>
      let (code, s') := convert unpE stmt s
      if code != "" && pyStrip code != "" then
        code :: convertMethodBody unpE rest s'
      else convertMethodBody unpE rest s'

/-- Fresh converter state for one method, as built by
`_statements_from_model_method` (context parameters are the method's
non-`self` parameters). -/
def initState (contextParams : List String) : CState :=
  { contextParams := contextParams }

end Conv

/-! ## Diagnostics (`xnlogo/semantics/diagnostics.py`) -/

/-- `Diagnostic`: a leveled message; the level is the string `"error"` or
`"warning"` exactly as in the source. -/
structure Diagnostic where
  message : String
  level : String := "error"
  deriving DecidableEq, Repr

/-- `DiagnosticBag._items`: the ordered list of collected diagnostics. -/
abbrev DiagBag := List Diagnostic

/-- `DiagnosticBag.error`. -/
def DiagBag.error (bag : DiagBag) (message : String) : DiagBag :=
  List.append bag [{ message := message, level := "error" }]

/-- `DiagnosticBag.warning`. -/
def DiagBag.warning (bag : DiagBag) (message : String) : DiagBag :=
  List.append bag [{ message := message, level := "warning" }]

/-- `DiagnosticBag.has_errors`. -/
def DiagBag.has_errors (bag : DiagBag) : Bool :=
  List.any bag (fun item => item.level == "error")

/-- `DiagnosticBag.promote_warnings_to_errors`. -/
def DiagBag.promote_warnings_to_errors (bag : DiagBag) : DiagBag :=
  List.map
    (fun item =>
      if item.level == "warning" then { item with level := "error" } else item)
    bag

/-! ## The IR (`xnlogo/ir/model.py` and `xnlogo/ir/statements.py`)

These records embed `ir/model.py` exactly as that file defines them — in
particular `AgentBehavior` has the fields `name`, `statements`,
`schedule_phase` and `probabilistic` and nothing else, and no
`ExecutionContext` type exists in the module (which is what claim C4 is
about). -/

/-- `SchedulePhase`. -/
inductive SchedulePhase where
  | SETUP | TICK | CUSTOM
  deriving DecidableEq, Repr

/-- `RawStatement` (the only `IRStatement` subclass in
`ir/statements.py`, so `isinstance(stmt, RawStatement)` is always true). -/
inductive IRStatement where
  | raw (source : String) (is_netlogo : Bool)
  deriving DecidableEq, Repr

/-- `StateField`. -/
structure StateField where
  name : String
  type_hint : Option String := none
  default : Option String := none
  deriving DecidableEq, Repr

/-- `GlobalVar`. -/
structure GlobalVar where
  name : String
  default : Option String := none
  deriving DecidableEq, Repr

/-- `Reporter`. -/
structure Reporter where
  name : String
  expression : String
  deriving DecidableEq, Repr

/-- `AgentBehavior` as `ir/model.py` defines it. -/
structure AgentBehavior where
  name : String
  statements : List IRStatement := []
  schedule_phase : SchedulePhase := .TICK
  probabilistic : Bool := false
  deriving DecidableEq, Repr

/-- `AgentSpec` as `ir/model.py` defines it. -/
structure AgentSpec where
  identifier : String
  breed : Option String
  state_fields : List StateField := []
  behaviors : List AgentBehavior := []
  deriving DecidableEq, Repr

/-- `PatchSpec`. -/
structure PatchSpec where
  state_fields : List StateField := []
  deriving DecidableEq, Repr

/-- `SeedConfig`. -/
structure SeedConfig where
  strategy : String := "random"
  value : Option Int := none
  deriving DecidableEq, Repr

/-- `ModelSpec`; a widget dict is modelled as a key/value association
list. -/
structure ModelSpec where
  globals : List GlobalVar := []
  agents : List AgentSpec := []
  patches : PatchSpec := {}
  random_seed_strategy : SeedConfig := {}
  reporters : List Reporter := []
  widgets : List (List (String × String)) := []
  deriving DecidableEq, Repr

/-! ## Semantic checks (`xnlogo/semantics/checks.py`)

The behavioral check re-parses each raw statement with the black-box
`ast.parse`; that parser appears as an oracle of type
`String → Option CheckNode` (`none` covers the `except` branches).  A
`CheckNode` is a parsed host-language tree as seen by `ast.walk`: one
constructor per node class the check inspects, with `otherNode` for every
other node class; a comprehension generator is represented by its list of
`ifs` (only their number is ever consulted). -/

inductive CheckNode where
  | moduleNode (children : List CheckNode)
  | asyncFunctionDef (children : List CheckNode)
  | asyncFor (children : List CheckNode)
  | asyncWith (children : List CheckNode)
  | awaitNode (children : List CheckNode)
  | lambdaNode (children : List CheckNode)
  | tryNode (children : List CheckNode)
  | listComp (generators : List (List Unit)) (children : List CheckNode)
  | dictComp (generators : List (List Unit)) (children : List CheckNode)
  | setComp (generators : List (List Unit)) (children : List CheckNode)
  | generatorExp (generators : List (List Unit)) (children : List CheckNode)
  | yieldNode (children : List CheckNode)
  | yieldFrom (children : List CheckNode)
  | withNode (children : List CheckNode)
  | classDef (children : List CheckNode)
  | importNode (children : List CheckNode)
  | importFrom (children : List CheckNode)
  | otherNode (children : List CheckNode)

namespace Checks

/-- `_is_complex_comprehension`: more than one generator, or some
generator with more than one filter. -/
def is_complex_comprehension (generators : List (List Unit)) : Bool :=
  decide (generators.length > 1)
    || generators.any (fun ifs => decide (ifs.length > 1) && !ifs.isEmpty)

/-- `_is_simple_generator`: exactly one generator with at most one
filter. -/
def is_simple_generator (generators : List (List Unit)) : Bool :=
  match generators with
  | [g] => decide (g.length ≤ 1)
  | _ => false

mutual

/-- The `ast.walk` loop of `_check_unsupported_constructs_in_behavior`:
the unsupported-construct tags a node and its descendants contribute.
The `ast.Import` / `ast.ImportFrom` branch is `pass` in the source and
therefore contributes nothing. -/
def collectTags : CheckNode → List String
  | .moduleNode children => collectTagsList children
  | .asyncFunctionDef children => "async/await" :: collectTagsList children
  | .asyncFor children => "async/await" :: collectTagsList children
  | .asyncWith children => "async/await" :: collectTagsList children
  | .awaitNode children => "async/await" :: collectTagsList children
  | .lambdaNode children => "lambda" :: collectTagsList children
  | .tryNode children => "try/except" :: collectTagsList children
  | .listComp generators children =>
    if is_complex_comprehension generators then
      "complex list comprehension" :: collectTagsList children
    else collectTagsList children
  | .dictComp generators children =>
    if !is_simple_generator generators then
      "Dict comprehension" :: collectTagsList children
    else collectTagsList children
  | .setComp generators children =>
    if !is_simple_generator generators then
      "Set comprehension" :: collectTagsList children
    else collectTagsList children
  | .generatorExp generators children =>
    if !is_simple_generator generators then
      "Generator expression" :: collectTagsList children
    else collectTagsList children
  | .yieldNode children => "generator (yield)" :: collectTagsList children
  | .yieldFrom children => "generator (yield)" :: collectTagsList children
  | .withNode children => "with statement" :: collectTagsList children
  | .classDef children => "nested class" :: collectTagsList children
  | .importNode children => collectTagsList children
  | .importFrom children => collectTagsList children
  | .otherNode children => collectTagsList children

def collectTagsList : List CheckNode → List String
  | [] => []
  | n :: ns => collectTags n ++ collectTagsList ns

end

/-- Insertion into a sorted duplicate-free list; folding it over the
collected tags yields Python's `sorted(set(...))`. -/
def insertSorted (x : String) : List String → List String
  | [] => [x]
  | y :: ys =>
    if x == y then y :: ys
    else if x < y then x :: y :: ys
    else y :: insertSorted x ys

/-- `sorted(unsupported_nodes)` where `unsupported_nodes` is a set. -/
def sortedSet (tags : List String) : List String :=
  tags.foldl (fun acc t => insertSorted t acc) []

/-- The statement loop of `_check_unsupported_constructs_in_behavior`:
already-NetLogo statements are skipped, statements the oracle cannot parse
are silently skipped, parsed trees are walked for tags. -/
def behaviorTags (parse : String → Option CheckNode) :
    List IRStatement → List String
  | [] => []
  | .raw source is_netlogo :: rest =>
    (if is_netlogo then []
     else
       match parse source with
       | none => []
       | some tree => collectTags tree)
      ++ behaviorTags parse rest

/-- `_check_unsupported_constructs_in_behavior`. -/
def check_unsupported_constructs_in_behavior
    (parse : String → Option CheckNode) (agent : AgentSpec)
    (behavior : AgentBehavior) (diagnostics : DiagBag) : DiagBag :=
  (sortedSet (behaviorTags parse behavior.statements)).foldl
    (fun bag construct =>
      bag.warning ("Agent '" ++ agent.identifier ++ "', behavior '"
        ++ behavior.name ++ "': " ++ construct
        ++ " may not translate to NetLogo"))
    diagnostics

/-- The occurrence counter of `_check_duplicate_behaviors`
(`collections.Counter` preserves first-occurrence order). -/
def bump (counts : List (String × Nat)) (n : String) : List (String × Nat) :=
  match counts with
  | [] => [(n, 1)]
  | (k, c) :: rest => if k == n then (k, c + 1) :: rest else (k, c) :: bump rest n

/-- `Counter(names).items()` in first-occurrence order. -/
def counterItems (names : List String) : List (String × Nat) :=
  names.foldl bump []

/-- `_check_duplicate_behaviors`. -/
def check_duplicate_behaviors (agent : AgentSpec) (diagnostics : DiagBag) :
    DiagBag :=
  (counterItems (agent.behaviors.map (fun b => b.name))).foldl
    (fun bag nc =>
      if nc.2 > 1 then
        bag.error ("Agent '" ++ agent.identifier ++ "' defines behavior '"
          ++ nc.1 ++ "' " ++ toString nc.2 ++ " times; names must be unique.")
      else bag)
    diagnostics

/-- `run_structural_checks`. -/
def run_structural_checks (model : ModelSpec) (diagnostics : DiagBag) :
    DiagBag :=
  if model.agents.isEmpty then
    diagnostics.error "No agents defined. Add at least one Model subclass."
  else
    model.agents.foldl
      (fun bag agent =>
        check_duplicate_behaviors agent
          (if agent.behaviors.isEmpty then
            bag.warning ("Agent '" ++ agent.identifier
              ++ "' has no behaviors defined.")
          else bag))
      diagnostics

/-- `run_behavioral_checks`. -/
def run_behavioral_checks (parse : String → Option CheckNode)
    (model : ModelSpec) (diagnostics : DiagBag) : DiagBag :=
  model.agents.foldl
    (fun bag agent =>
      agent.behaviors.foldl
        (fun bag behavior =>
          check_unsupported_constructs_in_behavior parse agent behavior
            (if behavior.statements.isEmpty then
              bag.warning ("Behavior '" ++ behavior.name ++ "' in agent '"
                ++ agent.identifier ++ "' has no statements.")
            else bag))
        bag)
    diagnostics

end Checks

/-! ## Compiler orchestration (`xnlogo/compiler.py`)

`Parser.parse` is an external stage here (its output, one merged
`ModelSpec` plus the diagnostics accumulated while parsing, is taken as an
argument), and so are `NetLogoGenerator.emit` and the actual file write;
`build_artifact` is embedded down to the decision the claims are about:
errors short-circuit generation and yield no artifact path, otherwise the
artifact is written to `<entry-stem>.<nlogox|nlogo>`. -/

/-- `CompilationResult`. -/
structure CompilationResult where
  model : ModelSpec
  diagnostics : DiagBag
  deriving DecidableEq

/-- `parse_sources`: run the parser (external; its output is the
`parserOut` argument), then the structural and behavioral checks. -/
def parse_sources (parse : String → Option CheckNode)
    (parserOut : ModelSpec × DiagBag) : CompilationResult :=
  let model := parserOut.1
  let diagnostics := Checks.run_structural_checks model parserOut.2
  let diagnostics := Checks.run_behavioral_checks parse model diagnostics
  { model := model, diagnostics := diagnostics }

/-- `build_artifact`: no artifact path when the diagnostics contain
errors; otherwise the artifact file name is the entry stem plus the
format-dependent extension (generation and the write itself are
external). -/
def build_artifact (parse : String → Option CheckNode)
    (parserOut : ModelSpec × DiagBag) (entryStem fmt : String) :
    CompilationResult × Option String :=
  let result := parse_sources parse parserOut
  if result.diagnostics.has_errors then (result, none)
  else
    (result,
      some (entryStem ++ (if pyLower fmt == "nlogox" then ".nlogox" else ".nlogo")))

/-! ## Telemetry (`xnlogo/runtime/telemetry.py`)

JSON values are embedded as the `JValue` tree; `json.dumps` followed by
`json.loads` is the identity on values representable in JSON, so the
`to_json`/`from_json_file` pair is modelled at the level of the decoded
row list (the file write/read in between is external I/O). -/

/-- A JSON value (Python dicts keep insertion order, hence association
lists). -/
inductive JValue where
  | jnull
  | jbool (b : Bool)
  | jint (n : Int)
  | jstr (s : String)
  | jarr (items : List JValue)
  | jobj (fields : List (String × JValue))

/-- Python `int(...)` on a decoded JSON value: exact for integers and
booleans, digit strings via parsing; anything else raises (`none`). -/
def pyInt : JValue → Option Int
  | .jint n => some n
  | .jbool b => some (if b then 1 else 0)
  | .jstr s => s.toInt?
  | _ => none

/-- `TelemetryRecord`. -/
structure TelemetryRecord where
  tick : Int
  metrics : List (String × JValue)

/-- `TelemetryBuffer`. -/
structure TelemetryBuffer where
  records : List TelemetryRecord := []

/-- `TelemetryBuffer.record` (appends a copy of the metrics dict). -/
def TelemetryBuffer.record (b : TelemetryBuffer) (tick : Int)
    (metrics : List (String × JValue)) : TelemetryBuffer :=
  { records := b.records ++ [{ tick := tick, metrics := metrics }] }

/-- Python dict update `d[k] = v`: overwrite in place or append. -/
def dictSet (d : List (String × JValue)) (k : String) (v : JValue) :
    List (String × JValue) :=
  match d with
  | [] => [(k, v)]
  | (k', v') :: rest =>
    if k' == k then (k', v) :: rest else (k', v') :: dictSet rest k v

/-- The row `{"tick": record.tick, **record.metrics}` of `to_json`. -/
def tickRow (tick : Int) (metrics : List (String × JValue)) :
    List (String × JValue) :=
  metrics.foldl (fun d kv => dictSet d kv.1 kv.2) [("tick", .jint tick)]

/-- `TelemetryBuffer.to_json`, decoded: the list of rows the emitted JSON
document denotes. -/
def to_json_rows (b : TelemetryBuffer) : List (List (String × JValue)) :=
  b.records.map (fun r => tickRow r.tick r.metrics)

/-- The row loop of `TelemetryBuffer.from_json_file`: `tick` is
`int(row.get("tick", 0))` (a failing `int` raises, hence `none`), the
metrics are every other key in order. -/
def from_json_rows : List (List (String × JValue)) → Option TelemetryBuffer
  | [] => some {}
  | row :: rest =>
    match pyInt ((row.lookup "tick").getD (.jint 0)) with
    | none => none
    | some tick =>
      match from_json_rows rest with
      | none => none
      | some b =>
        some { records := { tick := tick,
                            metrics := row.filter (fun kv => kv.1 != "tick") }
                :: b.records }

/-! ## The runtime session (`xnlogo/runtime/session.py`)

The JPype workspace is an abstract type `W`; `newInstance` (the result of
`_ensure_headless_workspace(...).newInstance()`) is passed in, and the
side effects `workspace.command` / `workspace.report` / `workspace.open`
run on the external process, so the session's own state is the optional
workspace handle.  A raised `RuntimeError` is the `Except.error` case. -/

/-- `NetLogoSession`: the `_workspace` attribute (`None` when closed). -/
structure NetLogoSession (W : Type) where
  workspace : Option W := none

namespace NetLogoSession

/-- `NetLogoSession.open` (named `openSession` because `open` is a Lean
keyword): a no-op when a workspace already exists, otherwise store the
freshly created instance. -/
def openSession (s : NetLogoSession W) (newInstance : W) : NetLogoSession W :=
  match s.workspace with
  | some _ => s
  | none => { workspace := some newInstance }

/-- `NetLogoSession.close`: a no-op when already closed, otherwise dispose
(external) and clear the handle. -/
def close (s : NetLogoSession W) : NetLogoSession W :=
  match s.workspace with
  | none => s
  | some _ => { workspace := none }

/-- `NetLogoSession._require_workspace`. -/
def require_workspace (s : NetLogoSession W) : Except String W :=
  match s.workspace with
  | none => .error "Session not open"
  | some w => .ok w

/-- `NetLogoSession.command`: requires an open session; the command itself
runs on the external workspace, leaving the session state unchanged. -/
def command (s : NetLogoSession W) (_cmd : String) :
    Except String (NetLogoSession W) :=
  match s.require_workspace with
  | .error e => .error e
  | .ok _ => .ok s

/-- `NetLogoSession.report`: requires an open session and yields the
workspace the reporter is evaluated on. -/
def report (s : NetLogoSession W) (_reporter : String) : Except String W :=
  s.require_workspace

/-- `NetLogoSession.load_model`: requires an open session; the load runs
on the external workspace. -/
def load_model (s : NetLogoSession W) (_path : String) :
    Except String (NetLogoSession W) :=
  match s.require_workspace with
  | .error e => .error e
  | .ok _ => .ok s

end NetLogoSession

/-! ## The stale IR record (claim C4)

`xnlogo/parser/ast_parser.py` imports `ExecutionContext` from
`xnlogo.ir.model` and constructs `AgentBehavior(name=…, parameters=…)`,
then assigns `behavior.context`; `xnlogo/codegen/netlogo_generator.py`
reads `behavior.context` and `behavior.parameters` throughout.  The names
below record what `ir/model.py` actually exports and the field list of its
slotted `AgentBehavior` dataclass, together with a model of CPython's
keyword-argument check for dataclass constructors. -/

/-- The names `ir/model.py` defines at module level. -/
def irModelExports : List String :=
  ["SchedulePhase", "StateField", "GlobalVar", "Reporter", "AgentBehavior",
   "AgentSpec", "PatchSpec", "SeedConfig", "ModelSpec"]

/-- The names `ast_parser.py` imports from `xnlogo.ir.model`. -/
def astParserImportsFromIrModel : List String :=
  ["AgentBehavior", "AgentSpec", "ExecutionContext", "GlobalVar", "ModelSpec",
   "SchedulePhase", "StateField"]

/-- The fields of the `AgentBehavior` dataclass in `ir/model.py` (also its
`__slots__`, since it is declared with `slots=True`). -/
def agentBehaviorFields : List String :=
  ["name", "statements", "schedule_phase", "probabilistic"]

/-- Calling a dataclass constructor with keyword arguments: CPython raises
`TypeError` at the first keyword that is not a field. -/
def dataclassKeywordCall (fields kwargs : List String) : Except String Unit :=
  match kwargs.find? (fun k => !fields.contains k) with
  | some k => .error ("TypeError: unexpected keyword argument " ++ k)
  | none => .ok ()

/-! ## Concrete instantiations used by witnesses and counterexamples -/

/-- A concrete stand-in for the `ast.unparse` expression oracle. -/
def defaultUnparseE : PyExpr → String := fun _ => ""

/-- A concrete stand-in for the `ast.unparse` statement oracle. -/
def defaultUnparseS : NTStmt → String := fun _ => ""

/-- A behavior whose single statement is an in-method import (source
syntax, not yet lowered). -/
def importBehavior : AgentBehavior :=
  { name := "step", statements := [.raw "import math" false] }

/-- An agent holding `importBehavior`. -/
def importAgent : AgentSpec :=
  { identifier := "Bot", breed := none, behaviors := [importBehavior] }

/-- A model holding `importAgent`. -/
def importModel : ModelSpec := { agents := [importAgent] }

/-- The parse oracle for `"import math"`: `ast.parse` yields a module
whose only child is an `ast.Import` node. -/
def importParse : String → Option CheckNode := fun s =>
  if s == "import math" then some (.moduleNode [.importNode []]) else none

/-- A concrete telemetry buffer with two records. -/
def sampleBuffer : TelemetryBuffer :=
  { records :=
      [{ tick := 0, metrics := [("infected", .jint 5)] },
       { tick := 1, metrics := [("infected", .jint 7), ("label", .jstr "a")] }] }

/-- One diagnostic bag grows out of another by appending only (the sole
way `DiagnosticBag.error` / `DiagnosticBag.warning` change it). -/
def BagExtends (b b' : DiagBag) : Prop := ∃ t, b' = b ++ t

/-! ## Append-only lemmas for the diagnostic bag -/

theorem bagExtends_rfl (b : DiagBag) : BagExtends b b :=
  ⟨[], (List.append_nil b).symm⟩

theorem bagExtends_trans {a b c : DiagBag} (h1 : BagExtends a b)
    (h2 : BagExtends b c) : BagExtends a c := by
  obtain ⟨t1, e1⟩ := h1
  obtain ⟨t2, e2⟩ := h2
  exact ⟨t1 ++ t2, by rw [e2, e1, List.append_assoc]⟩

theorem bagExtends_error (b : DiagBag) (m : String) :
    BagExtends b (b.error m) :=
  ⟨[{ message := m, level := "error" }], rfl⟩

theorem bagExtends_warning (b : DiagBag) (m : String) :
    BagExtends b (b.warning m) :=
  ⟨[{ message := m, level := "warning" }], rfl⟩

theorem bagExtends_foldl {α : Type} {f : DiagBag → α → DiagBag}
    (hf : ∀ b x, BagExtends b (f b x)) :
    ∀ (l : List α) (b : DiagBag), BagExtends b (l.foldl f b)
  | [], b => bagExtends_rfl b
  | x :: xs, b =>
    bagExtends_trans (hf b x) (bagExtends_foldl hf xs (f b x))

theorem bagExtends_unsupported (parse : String → Option CheckNode)
    (agent : AgentSpec) (behavior : AgentBehavior) (b : DiagBag) :
    BagExtends b
      (Checks.check_unsupported_constructs_in_behavior parse agent behavior b) :=
  bagExtends_foldl (fun b _ => bagExtends_warning b _) _ b

theorem bagExtends_duplicates (agent : AgentSpec) (b : DiagBag) :
    BagExtends b (Checks.check_duplicate_behaviors agent b) := by
  refine bagExtends_foldl (fun b nc => ?_) _ b
  dsimp only
  split
  · exact bagExtends_error b _
  · exact bagExtends_rfl b

theorem bagExtends_structural (model : ModelSpec) (b : DiagBag) :
    BagExtends b (Checks.run_structural_checks model b) := by
  unfold Checks.run_structural_checks
  split
  · exact bagExtends_error b _
  · refine bagExtends_foldl (fun b agent => ?_) _ b
    refine bagExtends_trans (b := if agent.behaviors.isEmpty then
      b.warning ("Agent '" ++ agent.identifier ++ "' has no behaviors defined.")
      else b) ?_ (bagExtends_duplicates agent _)
    split
    · exact bagExtends_warning b _
    · exact bagExtends_rfl b

theorem bagExtends_behavioral (parse : String → Option CheckNode)
    (model : ModelSpec) (b : DiagBag) :
    BagExtends b (Checks.run_behavioral_checks parse model b) := by
  unfold Checks.run_behavioral_checks
  refine bagExtends_foldl (fun b agent => ?_) _ b
  refine bagExtends_foldl (fun b behavior => ?_) _ b
  refine bagExtends_trans (b := if behavior.statements.isEmpty then
    b.warning ("Behavior '" ++ behavior.name ++ "' in agent '"
      ++ agent.identifier ++ "' has no statements.") else b) ?_
    (bagExtends_unsupported parse agent behavior _)
  split
  · exact bagExtends_warning b _
  · exact bagExtends_rfl b

/-! ## Claim theorems -/

/-- C1: for every input string the host parser rejects (`parsed = none`
models `ast.parse` raising `SyntaxError`), `NetLogoTranslator.translate`
returns — it is a total function, so generation never aborts — and its
output is exactly the input prefixed with `"; UNPARSED: "`. -/
theorem C1_unparsed_echo (unpE : PyExpr → String) (unpS : NTStmt → String)
    (source : String) :
    NT.translate unpE unpS source none = "; UNPARSED: " ++ source := rfl

/-- C2, counterexample: on `self.x += 1` the statement translator emits
`set x x + 1`, not the parenthesized `set x (x + 1)` the claim states
(the repository's own test `test_translate_augmented_assignment` asserts
the unparenthesized form). -/
theorem C2_counterexample :
    NT.translate defaultUnparseE defaultUnparseS "self.x += 1"
        (some [.augAssign (.attribute (.name "self") "x") .add
          (.const (.num "1"))])
      = "set x x + 1" ∧
    NT.translate defaultUnparseE defaultUnparseS "self.x += 1"
        (some [.augAssign (.attribute (.name "self") "x") .add
          (.const (.num "1"))])
      ≠ "set x (x + 1)" :=
  ⟨rfl, by decide⟩

/-- C2, amended: for `self.field += expr` the legacy statement translator
(`NetLogoTranslator`) emits the unparenthesized `set field field op expr`,
while the model-subclass converter (`PythonToNetLogoConverter`) emits the
parenthesized `set field (field op expr)`; for `+ - * /` the emitted
operator is the Python one. -/
theorem C2_augassign_amended :
    (∀ (unpE : PyExpr → String) (unpS : NTStmt → String) (field : String)
        (op : PyBinOp) (value : PyExpr),
      NT.visitStmt unpE unpS
          (.augAssign (.attribute (.name "self") field) op value)
        = "set " ++ field ++ " " ++ field ++ " " ++ NT.opStr op ++ " "
          ++ NT.visitExpr unpE value) ∧
    (∀ (unpE : PyExpr → String) (s : Conv.CState) (field : String)
        (op : PyBinOp) (value : PyExpr),
      field.pyReplace "self." "" = field →
      Conv.visitStmt unpE
          (.augAssign (.attribute (.name "self") field) op value) s
        = Conv.emit s (Conv.indentStr s.indentLevel ++ "set " ++ field ++ " ("
          ++ field ++ " " ++ Conv.augOpStr op ++ " "
          ++ Conv.convertExpr unpE s.loopVars s.contextParams value ++ ")")) ∧
    (NT.opStr .add = "+" ∧ NT.opStr .sub = "-" ∧ NT.opStr .mult = "*"
      ∧ NT.opStr .div = "/") ∧
    (Conv.augOpStr .add = "+" ∧ Conv.augOpStr .sub = "-"
      ∧ Conv.augOpStr .mult = "*" ∧ Conv.augOpStr .div = "/") := by
  refine ⟨fun unpE unpS field op value => rfl, ?_,
    ⟨rfl, rfl, rfl, rfl⟩, ⟨rfl, rfl, rfl, rfl⟩⟩
  intro unpE s field op value h
  show Conv.emit s (Conv.indentStr s.indentLevel ++ "set "
      ++ field.pyReplace "self." "" ++ " (" ++ field.pyReplace "self." "" ++ " "
      ++ Conv.augOpStr op ++ " "
      ++ Conv.convertExpr unpE s.loopVars s.contextParams value ++ ")") = _
  rw [h]

/-- C2, witness for the amended theorem: `self.x += 1` through the
model-subclass converter in a fresh state yields `set x (x + 1)`. -/
theorem C2_augassign_amended_witness :
    ("x" : String).pyReplace "self." "" = "x" ∧
    Conv.visitStmt defaultUnparseE
        (.augAssign (.attribute (.name "self") "x") .add (.const (.num "1")))
        (Conv.initState [])
      = Conv.emit (Conv.initState []) "set x (x + 1)" := by
  refine ⟨by decide, ?_⟩
  have h := C2_augassign_amended.2.1 defaultUnparseE (Conv.initState []) "x"
    .add (.const (.num "1")) (by decide)
  exact h.trans rfl

/-- C4: the claim matches the intent of the parser and the generator
(`ast_parser.py` imports `ExecutionContext` from `xnlogo.ir.model`,
constructs `AgentBehavior(name=…, parameters=…)` and assigns
`behavior.context`; `netlogo_generator.py` reads both), but `ir/model.py`
exports no `ExecutionContext` and its slotted `AgentBehavior` has neither
a `context` nor a `parameters` field, so that constructor call raises
`TypeError` (and the import itself raises `ImportError`). -/
theorem C4_agent_behavior_missing_fields :
    astParserImportsFromIrModel.contains "ExecutionContext" = true ∧
    irModelExports.contains "ExecutionContext" = false ∧
    agentBehaviorFields.contains "context" = false ∧
    agentBehaviorFields.contains "parameters" = false ∧
    dataclassKeywordCall agentBehaviorFields ["name", "parameters"]
      = .error "TypeError: unexpected keyword argument parameters" :=
  ⟨rfl, rfl, rfl, rfl, rfl⟩

/-- C5: the behavioral checker's `ast.Import`/`ast.ImportFrom` branch is
`pass`, so a behavior whose statement is an in-method `import math`
contributes no unsupported-construct tag and the behavioral checks append
no diagnostic at all — contradicting the source's own comment ("Only warn
about imports inside methods") and the spec. -/
theorem C5_import_warning_missing :
    Checks.collectTags (.moduleNode [.importNode []]) = [] ∧
    Checks.run_behavioral_checks importParse importModel [] = [] :=
  ⟨rfl, rfl⟩

/-- The converter maps a bare name to itself. -/
theorem convertExpr_name (unpE : PyExpr → String) (lv cp : List String)
    (i : String) : Conv.convertExpr unpE lv cp (.name i) = i := rfl

/-- C6, counterexample: `x = self.turtles.create(1)` is a first assignment
to the plain local name `x`, yet the converter emits `set x …`, not
`let x …` (the agent-creation branch of `visit_Assign` fires first). -/
theorem C6_create_counterexample :
    (Conv.convert defaultUnparseE
        (.assign [.name "x"]
          (.call (.attribute (.attribute (.name "self") "turtles") "create")
            [.const (.num "1")]))
        (Conv.initState [])).1
      = "set x create-turtles 1" ∧
    (Conv.convert defaultUnparseE
        (.assign [.name "x"]
          (.call (.attribute (.attribute (.name "self") "turtles") "create")
            [.const (.num "1")]))
        (Conv.initState [])).1
      ≠ "let x create-turtles 1" :=
  ⟨rfl, by decide⟩

/-- C6, amended: in the model-subclass converter, the first assignment to
a plain tracked local whose right-hand side is not an agent-creation
`….create(…)` call is emitted as `let`, every later assignment to the same
name in the same scope as `set` (never a second `let`); the two branches
of an `if`/`else` and two sibling `if` blocks each re-declare the name
with `let`, because the declared-variable set is restored around
branches. -/
theorem C6_let_set_scoping :
    (∀ (unpE : PyExpr → String) (s : Conv.CState) (x : String) (e : PyExpr),
      s.localVars.contains x = true → s.declaredVars.contains x = false →
      Conv.isCreateCall e = false → x.pyReplace "self." "" = x →
      Conv.visitStmt unpE (.assign [.name x] e) s
        = { s with
            netlogoCode := s.netlogoCode
              ++ [Conv.indentStr s.indentLevel ++ "let " ++ x ++ " "
                ++ Conv.convertExpr unpE s.loopVars s.contextParams e],
            declaredVars := s.declaredVars ++ [x] }) ∧
    (∀ (unpE : PyExpr → String) (s : Conv.CState) (x : String) (e : PyExpr),
      s.localVars.contains x = true → s.declaredVars.contains x = true →
      Conv.isCreateCall e = false → x.pyReplace "self." "" = x →
      Conv.visitStmt unpE (.assign [.name x] e) s
        = { s with
            netlogoCode := s.netlogoCode
              ++ [Conv.indentStr s.indentLevel ++ "set " ++ x ++ " "
                ++ Conv.convertExpr unpE s.loopVars s.contextParams e] }) ∧
    (∀ (unpE : PyExpr → String) (s : Conv.CState) (x : String)
        (t e1 e2 : PyExpr),
      s.localVars.contains x = true → s.declaredVars.contains x = false →
      Conv.isCreateCall e1 = false → Conv.isCreateCall e2 = false →
      x.pyReplace "self." "" = x →
      Conv.truthyGuard t [.assign [.name x] e1] = false →
      Conv.visitStmt unpE
          (.ifS t [.assign [.name x] e1] [.assign [.name x] e2]) s
        = { s with
            netlogoCode := s.netlogoCode
              ++ [Conv.indentStr s.indentLevel ++ "ifelse "
                    ++ Conv.convertExpr unpE s.loopVars s.contextParams t
                    ++ " [",
                  Conv.indentStr (s.indentLevel + 1) ++ "let " ++ x ++ " "
                    ++ Conv.convertExpr unpE s.loopVars s.contextParams e1,
                  Conv.indentStr s.indentLevel ++ "] [",
                  Conv.indentStr (s.indentLevel + 1) ++ "let " ++ x ++ " "
                    ++ Conv.convertExpr unpE s.loopVars s.contextParams e2,
                  Conv.indentStr s.indentLevel ++ "]"],
            declaredVars := s.declaredVars ++ [x] }) ∧
    (∀ (unpE : PyExpr → String) (s : Conv.CState) (x : String)
        (t1 t2 e1 e2 : PyExpr),
      s.localVars.contains x = true → s.declaredVars.contains x = false →
      Conv.isCreateCall e1 = false → Conv.isCreateCall e2 = false →
      x.pyReplace "self." "" = x →
      Conv.truthyGuard t1 [.assign [.name x] e1] = false →
      Conv.truthyGuard t2 [.assign [.name x] e2] = false →
      Conv.visitStmts unpE
          [.ifS t1 [.assign [.name x] e1] [],
           .ifS t2 [.assign [.name x] e2] []] s
        = { s with
            netlogoCode := s.netlogoCode
              ++ [Conv.indentStr s.indentLevel ++ "if "
                    ++ Conv.convertExpr unpE s.loopVars s.contextParams t1
                    ++ " [",
                  Conv.indentStr (s.indentLevel + 1) ++ "let " ++ x ++ " "
                    ++ Conv.convertExpr unpE s.loopVars s.contextParams e1,
                  Conv.indentStr s.indentLevel ++ "]",
                  Conv.indentStr s.indentLevel ++ "if "
                    ++ Conv.convertExpr unpE s.loopVars s.contextParams t2
                    ++ " [",
                  Conv.indentStr (s.indentLevel + 1) ++ "let " ++ x ++ " "
                    ++ Conv.convertExpr unpE s.loopVars s.contextParams e2,
                  Conv.indentStr s.indentLevel ++ "]"] }) := by
  refine ⟨?_, ?_, ?_, ?_⟩
  · intro unpE s x e hl hd hc hx
    have hl' : x ∈ s.localVars := by simpa using hl
    have hd' : x ∉ s.declaredVars := by simpa using hd
    simp [Conv.visitStmt, Conv.visitAssignTargets, Conv.emit, Conv.pyAdd,
      convertExpr_name, hc, hl', hd', hx]
  · intro unpE s x e hl hd hc hx
    have hl' : x ∈ s.localVars := by simpa using hl
    have hd' : x ∈ s.declaredVars := by simpa using hd
    simp [Conv.visitStmt, Conv.visitAssignTargets, Conv.emit, Conv.pyAdd,
      convertExpr_name, hc, hl', hd', hx]
  · intro unpE s x t e1 e2 hl hd hc1 hc2 hx hg
    have hl' : x ∈ s.localVars := by simpa using hl
    have hd' : x ∉ s.declaredVars := by simpa using hd
    simp [Conv.visitStmt, Conv.visitStmts, Conv.visitAssignTargets, Conv.emit,
      Conv.pyAdd, Conv.isSingleIf, convertExpr_name, hc1, hc2, hl', hd', hx, hg]
    rw [String.append_assoc (Conv.indentStr s.indentLevel) "ifelse" " "]
    exact rfl
  · intro unpE s x t1 t2 e1 e2 hl hd hc1 hc2 hx hg1 hg2
    have hl' : x ∈ s.localVars := by simpa using hl
    have hd' : x ∉ s.declaredVars := by simpa using hd
    simp [Conv.visitStmt, Conv.visitStmts, Conv.visitAssignTargets, Conv.emit,
      Conv.pyAdd, Conv.isSingleIf, convertExpr_name, hc1, hc2, hl', hd', hx,
      hg1, hg2]
    constructor <;>
      · rw [String.append_assoc (Conv.indentStr s.indentLevel) "if" " "]
        exact rfl

/-- C6, witness: converting `if flag: x = 1 else: x = 2` in a state that
tracks `x` as a local yields `let` in both branches. -/
theorem C6_let_set_scoping_witness :
    ({ localVars := ["x"] } : Conv.CState).localVars.contains "x" = true ∧
    Conv.visitStmt defaultUnparseE
        (.ifS (.name "flag") [.assign [.name "x"] (.const (.num "1"))]
          [.assign [.name "x"] (.const (.num "2"))])
        { localVars := ["x"] }
      = { ({ localVars := ["x"] } : Conv.CState) with
          netlogoCode := ["ifelse flag [", "  let x 1", "] [", "  let x 2", "]"],
          declaredVars := ["x"] } := by
  refine ⟨rfl, ?_⟩
  have h := C6_let_set_scoping.2.2.1 defaultUnparseE { localVars := ["x"] }
    "x" (.name "flag") (.const (.num "1")) (.const (.num "2")) rfl rfl rfl rfl
    rfl rfl
  exact h.trans rfl

/-- C7: `for i in range(n): body` becomes `repeat n [ body ]` with the
loop target ignored (no counter variable appears in the output, which is
independent of `target`); `for i in range(a, b)` and
`for i in range(a, b, c)` become the explicit counter form
`set i a` / `while [i < b] [ body  set i (i + step) ]`, with the step
defaulting to `1` in the two-argument form. -/
theorem C7_for_range_translation :
    (∀ (unpE : PyExpr → String) (unpS : NTStmt → String)
        (target n : PyExpr) (body : List NTStmt),
      NT.visitStmt unpE unpS (.forS target (.call (.name "range") [n]) body)
        = "repeat " ++ NT.visitExpr unpE n ++ " [\n  "
          ++ String.intercalate "\n  " (NT.visitStmtList unpE unpS body)
          ++ "\n]") ∧
    (∀ (unpE : PyExpr → String) (unpS : NTStmt → String) (i : String)
        (a b : PyExpr) (body : List NTStmt),
      NT.visitStmt unpE unpS
          (.forS (.name i) (.call (.name "range") [a, b]) body)
        = "set " ++ i ++ " " ++ NT.visitExpr unpE a ++ "\nwhile [" ++ i
          ++ " < " ++ NT.visitExpr unpE b ++ "] [\n  "
          ++ String.intercalate "\n  " (NT.visitStmtList unpE unpS body)
          ++ "\n  set " ++ i ++ " (" ++ i ++ " + 1)\n]") ∧
    (∀ (unpE : PyExpr → String) (unpS : NTStmt → String) (i : String)
        (a b c : PyExpr) (body : List NTStmt),
      NT.visitStmt unpE unpS
          (.forS (.name i) (.call (.name "range") [a, b, c]) body)
        = "set " ++ i ++ " " ++ NT.visitExpr unpE a ++ "\nwhile [" ++ i
          ++ " < " ++ NT.visitExpr unpE b ++ "] [\n  "
          ++ String.intercalate "\n  " (NT.visitStmtList unpE unpS body)
          ++ "\n  set " ++ i ++ " (" ++ i ++ " + "
          ++ NT.visitExpr unpE c ++ ")\n]") :=
  ⟨fun _ _ _ _ _ => rfl, fun _ _ _ _ _ _ => rfl, fun _ _ _ _ _ _ _ => rfl⟩

/-- C10: on a session with no workspace (never opened, or closed),
`command`, `report` and `load_model` raise `RuntimeError("Session not
open")` — the session value itself being immutable, nothing about it
changes — while `close` is a no-op; on an already-open session, `open` is
a no-op. -/
theorem C10_session_guards {W : Type} (s t : NetLogoSession W) (w : W)
    (cmd rep path : String) (inst : W)
    (hs : s.workspace = none) (ht : t.workspace = some w) :
    s.command cmd = .error "Session not open" ∧
    s.report rep = .error "Session not open" ∧
    s.load_model path = .error "Session not open" ∧
    s.close = s ∧
    t.openSession inst = t := by
  refine ⟨?_, ?_, ?_, ?_, ?_⟩ <;>
    simp [NetLogoSession.command, NetLogoSession.report,
      NetLogoSession.load_model, NetLogoSession.require_workspace,
      NetLogoSession.close, NetLogoSession.openSession, hs, ht]

/-- C3: with zero agents the structural checker appends exactly one error
diagnostic (whose message contains `"No agents defined."`), the resulting
bag reports errors, and `build_artifact` yields no artifact path. -/
theorem C3_no_agents (parse : String → Option CheckNode) (model : ModelSpec)
    (diags : DiagBag) (stem fmt : String) (h : model.agents = []) :
    Checks.run_structural_checks model diags
      = diags ++ [{ message := "No agents defined. Add at least one Model subclass.",
                    level := "error" }] ∧
    (∃ d ∈ (parse_sources parse (model, diags)).diagnostics,
      d.level = "error" ∧ strContains d.message "No agents defined." = true) ∧
    (parse_sources parse (model, diags)).diagnostics.has_errors = true ∧
    (build_artifact parse (model, diags) stem fmt).2 = none := by
  have hs : Checks.run_structural_checks model diags
      = diags ++ [{ message := "No agents defined. Add at least one Model subclass.",
                    level := "error" }] := by
    simp [Checks.run_structural_checks, h, DiagBag.error]
  have hb : (parse_sources parse (model, diags)).diagnostics
      = diags ++ [{ message := "No agents defined. Add at least one Model subclass.",
                    level := "error" }] := by
    simp [parse_sources, Checks.run_behavioral_checks, h, hs]
  have hhe : (parse_sources parse (model, diags)).diagnostics.has_errors = true := by
    simp [hb, DiagBag.has_errors]
  refine ⟨hs, ?_, hhe, ?_⟩
  · refine ⟨{ message := "No agents defined. Add at least one Model subclass.",
              level := "error" }, ?_, rfl, rfl⟩
    rw [hb]
    simp
  · simp [build_artifact, hhe]

/-- C3, witness: an empty model with an empty bag builds no artifact. -/
theorem C3_no_agents_witness :
    ({} : ModelSpec).agents = [] ∧
    (build_artifact (fun _ => none) ({}, []) "model" "nlogox").2 = none :=
  ⟨rfl, (C3_no_agents (fun _ => none) {} [] "model" "nlogox" rfl).2.2.2⟩

/-- C9: the structural and behavioral checks only ever append to the
diagnostic bag — every previously collected diagnostic is preserved
unchanged and in order — and `parse_sources` hands the `ModelSpec` through
untouched (the embedded check code contains no write to the IR, so its
state-passing translation returns the model as received). -/
theorem C9_checks_append_only (parse : String → Option CheckNode)
    (model : ModelSpec) (diags : DiagBag) :
    (∃ t, Checks.run_structural_checks model diags = diags ++ t) ∧
    (∃ t, Checks.run_behavioral_checks parse model diags = diags ++ t) ∧
    (parse_sources parse (model, diags)).model = model :=
  ⟨bagExtends_structural model diags, bagExtends_behavioral parse model diags,
    rfl⟩

/-- `dict.__setitem__` with a fresh key appends. -/
theorem dictSet_fresh (d : List (String × JValue)) (k : String) (v : JValue)
    (hk : k ∉ d.map Prod.fst) : dictSet d k v = d ++ [(k, v)] := by
  induction d with
  | nil => rfl
  | cons p rest ih =>
    simp only [List.map_cons, List.mem_cons] at hk
    push_neg at hk
    obtain ⟨h1, h2⟩ := hk
    have : (p.1 == k) = false := by
      simp [beq_eq_false_iff_ne]
      exact fun e => h1 e.symm
    simp [dictSet, this, ih h2]

/-- Folding fresh, duplicate-free updates into a dict appends them all. -/
theorem foldl_dictSet_fresh :
    ∀ (m d : List (String × JValue)),
      (∀ kv ∈ m, kv.1 ∉ d.map Prod.fst) → (m.map Prod.fst).Nodup →
      m.foldl (fun d kv => dictSet d kv.1 kv.2) d = d ++ m
  | [], d, _, _ => by simp
  | kv :: rest, d, hfresh, hnd => by
    simp only [List.foldl_cons]
    have hk : kv.1 ∉ d.map Prod.fst := hfresh kv (List.mem_cons_self kv rest)
    rw [dictSet_fresh d kv.1 kv.2 hk]
    simp only [List.map_cons, List.nodup_cons] at hnd
    have hrest : ∀ p ∈ rest, p.1 ∉ (d ++ [(kv.1, kv.2)]).map Prod.fst := by
      intro p hp
      simp only [List.map_append, List.mem_append, List.map_cons,
        List.map_nil, List.mem_singleton]
      push_neg
      refine ⟨fun hmem => hfresh p (List.mem_cons_of_mem kv hp) hmem, ?_⟩
      intro e
      exact hnd.1 (e ▸ List.mem_map_of_mem Prod.fst hp)
    rw [foldl_dictSet_fresh rest (d ++ [(kv.1, kv.2)]) hrest hnd.2]
    simp

/-- The `to_json` row for a record whose metric names avoid `"tick"`. -/
theorem tickRow_eq (t : Int) (m : List (String × JValue))
    (hm : "tick" ∉ m.map Prod.fst) (hnd : (m.map Prod.fst).Nodup) :
    tickRow t m = ("tick", .jint t) :: m := by
  unfold tickRow
  rw [foldl_dictSet_fresh m [("tick", .jint t)] ?_ hnd]
  · rfl
  · intro kv hkv
    simp only [List.map_cons, List.map_nil, List.mem_singleton]
    intro e
    exact hm (e ▸ List.mem_map_of_mem Prod.fst hkv)

/-- C8: serializing a `TelemetryBuffer` with `to_json` and reloading the
decoded rows with `from_json_file` reproduces an equal sequence of
`(tick, metrics)` records, provided no metric is named `"tick"` (the
decoded-row level models `json.loads ∘ json.dumps`, which is the identity
on JSON-representable values — the claim's other proviso). -/
theorem C8_telemetry_roundtrip (b : TelemetryBuffer)
    (h : ∀ r ∈ b.records,
      "tick" ∉ r.metrics.map Prod.fst ∧ (r.metrics.map Prod.fst).Nodup) :
    from_json_rows (to_json_rows b) = some b := by
  obtain ⟨records⟩ := b
  induction records with
  | nil => rfl
  | cons r rest ih =>
    have hr := h r (List.mem_cons_self r rest)
    have hrest := ih (fun r' hr' => h r' (List.mem_cons_of_mem r hr'))
    simp only [to_json_rows, List.map_cons] at hrest ⊢
    rw [tickRow_eq r.tick r.metrics hr.1 hr.2]
    simp only [from_json_rows] at hrest ⊢
    have hlookup : (((("tick", JValue.jint r.tick) :: r.metrics).lookup "tick").getD
        (.jint 0)) = .jint r.tick := by
      simp [List.lookup]
    rw [hlookup]
    have hfilter : (("tick", JValue.jint r.tick) :: r.metrics).filter
        (fun kv => kv.1 != "tick") = r.metrics := by
      simp only [List.filter_cons]
      have hne : (("tick" : String) != "tick") = false := by decide
      rw [hne, if_neg (by simp)]
      refine List.filter_eq_self.mpr ?_
      intro kv hkv
      have : kv.1 ≠ "tick" := fun e => hr.1 (e ▸ List.mem_map_of_mem Prod.fst hkv)
      simpa [bne_iff_ne]
    rw [hfilter]
    rw [hrest]
    rfl

/-- C8, witness: a concrete two-record buffer survives the round trip. -/
theorem C8_telemetry_roundtrip_witness :
    from_json_rows (to_json_rows sampleBuffer) = some sampleBuffer :=
  C8_telemetry_roundtrip sampleBuffer (by decide)

/-- C10, witness: a fresh (never-opened) session over a concrete
workspace type rejects all three operations, and the no-ops hold. -/
theorem C10_session_guards_witness :
    ({ workspace := none } : NetLogoSession Nat).command "go"
      = .error "Session not open" ∧
    ({ workspace := none } : NetLogoSession Nat).report "ticks"
      = .error "Session not open" ∧
    ({ workspace := none } : NetLogoSession Nat).load_model "m.nlogox"
      = .error "Session not open" ∧
    ({ workspace := none } : NetLogoSession Nat).close
      = { workspace := none } ∧
    ({ workspace := some 3 } : NetLogoSession Nat).openSession 7
      = { workspace := some 3 } :=
  C10_session_guards { workspace := none } { workspace := some 3 } 3
    "go" "ticks" "m.nlogox" 7 rfl rfl

end Xnlogo
